import Mathlib

/-!
Verification of the OpenClaw IRC plugin core against its natural-language
specification.  The definitions below are shallow embeddings of the
TypeScript sources:

  * src/irc/send.ts      — chunkMessage, sendMessageIrc chunk pipeline
  * src/irc/ratelimit.ts — isRateLimited and its per-key entry state
  * src/irc/auth.ts      — isAuthorizedForDm / isAuthorizedForChannel / isAuthorized
  * src/irc/normalize.ts — isChannel
  * src/irc/client.ts    — reconnect backoff, registered handler, NickServ fallback
  * src/channel.ts       — gateway inbound-message error path

JavaScript strings are modelled as Lean `String` / `List Char`; machine
timestamps (`Date.now()`) as `Nat` milliseconds; `undefined`-able values as
`Option`.  Where the JS runtime can carry values outside the declared
TypeScript union types (the config object is cast without validation in
src/channel.ts, and auth.ts defends against that with `?.`/`??` and default
switch arms), the model uses `Option String` for the policy fields.
-/

/-! ## String helpers (JS semantics) -/

/-- Whitespace set of the JavaScript `trimEnd` operation: WhiteSpace and
LineTerminator code points (tab, line feed, vertical tab, form feed,
carriage return, space, no-break space, the Unicode space separators, the
two line separators, and the byte-order mark). -/
def isJsWhitespace (c : Char) : Bool :=
  decide (c.toNat = 9 ∨ c.toNat = 10 ∨ c.toNat = 11 ∨ c.toNat = 12 ∨
    c.toNat = 13 ∨ c.toNat = 32 ∨ c.toNat = 160 ∨ c.toNat = 0x1680 ∨
    (0x2000 ≤ c.toNat ∧ c.toNat ≤ 0x200a) ∨ c.toNat = 0x2028 ∨
    c.toNat = 0x2029 ∨ c.toNat = 0x202f ∨ c.toNat = 0x205f ∨
    c.toNat = 0x3000 ∨ c.toNat = 0xfeff)

/-- JS `String.prototype.trimEnd` on a character list: drop trailing
whitespace. -/
def trimEnd (l : List Char) : List Char :=
  (l.reverse.dropWhile isJsWhitespace).reverse

/-- JS `str.lastIndexOf(ch, fromIdx)` for a one-character search string:
the largest index `j ≤ fromIdx` with `str[j] = ch`, if any. -/
def lastIndexOfLe (l : List Char) (c : Char) : Nat → Option Nat
  | 0 => if l.get? 0 = some c then some 0 else none
  | n + 1 => if l.get? (n + 1) = some c then some (n + 1) else lastIndexOfLe l c n

/-! ## Outbound chunker (src/irc/send.ts, chunkMessage) -/

/-- The `> maxLength * 0.3` guard of chunkMessage applied to a candidate
split index.  The JS source compares the integer index against the IEEE-754
double `maxLength * 0.3`; for every length below 3×10^15 that comparison
coincides with the exact rational comparison `10 * j > 3 * maxLength`
modelled here (0.3 rounds down as a double, and when 3L/10 is an integer
the product rounds back to it exactly). -/
def pickByThreshold (maxLength : Nat) (idx : Option Nat) : Option Nat :=
  match idx with
  | some j => if 3 * maxLength < 10 * j then some j else none
  | none => none

/-- Split-point selection of chunkMessage: last newline within the limit if
past the 30% threshold, else last space within the limit if past the
threshold, else a forced split at exactly maxLength. -/
def pickSplitIndex (maxLength : Nat) (remaining : List Char) : Nat :=
  match pickByThreshold maxLength (lastIndexOfLe remaining '\n' maxLength) with
  | some j => j
  | none =>
    match pickByThreshold maxLength (lastIndexOfLe remaining ' ' maxLength) with
    | some j => j
    | none => maxLength

/-- The `while (remaining.length > 0)` loop of chunkMessage.  The loop is
driven by explicit fuel; every iteration of the JS loop consumes at least
one character of `remaining` whenever `maxLength ≥ 1`, so fuel equal to the
initial length makes the model agree with the source on all inputs on which
the source terminates. -/
def chunkLoop (maxLength : Nat) : Nat → List Char → List (List Char)
  | 0, _ => []
  | fuel + 1, remaining =>
    if remaining.length = 0 then []
    else if remaining.length ≤ maxLength then
      if 0 < (trimEnd remaining).length then [trimEnd remaining] else []
    else
      let splitIndex := pickSplitIndex maxLength remaining
      let chunk := trimEnd (remaining.take splitIndex)
      let skip : Nat :=
        match remaining.get? splitIndex with
        | some c => if c = ' ' ∨ c = '\n' then 1 else 0
        | none => 0
      (if 0 < chunk.length then [chunk] else []) ++
        chunkLoop maxLength fuel (remaining.drop (splitIndex + skip))

/-- src/irc/send.ts `chunkMessage(text, maxLength)`: empty text gives no
chunks, text within the limit is returned whole, longer text goes through
the splitting loop. -/
def chunkMessage (text : String) (maxLength : Nat) : List String :=
  if text.data.length = 0 then []
  else if text.data.length ≤ maxLength then [text]
  else (chunkLoop maxLength text.data.length text.data).map String.mk

/-- Default chunk limit of src/irc/send.ts (MAX_MESSAGE_LENGTH). -/
def MAX_MESSAGE_LENGTH : Nat := 450

/-- JS `text.split("\\n")` on a character list: the list of segments
between newline characters (an empty input gives one empty segment, a
trailing newline gives a trailing empty segment). -/
def splitLines : List Char → List (List Char)
  | [] => [[]]
  | c :: cs =>
    match splitLines cs with
    | [] => [[]]
    | line :: rest =>
      if c = '\n' then [] :: line :: rest else (c :: line) :: rest

/-- The chunk sequence produced by src/irc/send.ts `sendMessageIrc`: split
on newlines first, skip completely empty lines, then chunk each line with
the default limit. -/
def sendChunks (text : String) : List String :=
  (((splitLines text.data).map String.mk).filter
      (fun line => line.length ≠ 0)).flatMap
    (fun line => chunkMessage line MAX_MESSAGE_LENGTH)

/-! ## Authorization (src/irc/auth.ts, src/irc/normalize.ts) -/

/-- src/types.ts IrcSaslConfig. -/
structure IrcSaslConfig where
  username : String
  password : String
deriving DecidableEq

/-- src/types.ts IrcGroupConfig. -/
structure IrcGroupConfig where
  users : List String
deriving DecidableEq

/-- src/irc/ratelimit.ts RateLimitConfig. -/
structure RateLimitConfig where
  maxRequests : Nat
  windowMs : Nat
deriving DecidableEq

/-- The dm section of the account configuration.  The TypeScript type
declares both fields, but src/channel.ts casts the loaded configuration
without validation and src/irc/auth.ts reads them through optional
chaining with defaults, so at runtime either may be absent. -/
structure DmConfig where
  policy : Option String
  allowFrom : Option (List String)
deriving DecidableEq

/-- src/types.ts IrcAccountConfig, with the runtime-optional fields that
src/irc/auth.ts and src/irc/client.ts guard against modelled as `Option`
(the JS object an account is resolved from is cast unchecked).  The groups
object is modelled as an association list from channel name to group
config. -/
structure IrcAccountConfig where
  enabled : Bool
  server : String
  port : Nat
  ssl : Bool
  nickname : String
  username : Option String
  realname : String
  sasl : Option IrcSaslConfig
  nickservPassword : Option String
  channels : List String
  dm : Option DmConfig
  groupPolicy : Option String
  groups : List (String × IrcGroupConfig)
  rateLimit : Option RateLimitConfig
deriving DecidableEq

/-- src/irc/auth.ts AuthorizationResult. -/
structure AuthorizationResult where
  authorized : Bool
  reason : Option String
deriving DecidableEq

/-- src/irc/auth.ts normalizeNick: lowercase then trim.  JS
`toLowerCase`/`trim` are modelled by Lean's `String.toLower`/`String.trim`
(they agree on the ASCII identifiers IRC nicknames are made of). -/
def normalizeNick (nick : String) : String :=
  nick.toLower.trim

/-- src/irc/auth.ts matchesEntry: a literal wildcard matches everyone,
otherwise compare normalized nicknames. -/
def matchesEntry (nick entry : String) : Bool :=
  if entry = "*" then true else normalizeNick nick = normalizeNick entry

/-- src/irc/auth.ts isInList. -/
def isInList (nick : String) (entries : List String) : Bool :=
  entries.any (fun entry => matchesEntry nick entry)

/-- Effective DM policy string: `config.dm?.policy ?? "pairing"`. -/
def dmPolicyOf (config : IrcAccountConfig) : String :=
  (config.dm.bind (fun d => d.policy)).getD "pairing"

/-- Effective DM allow list: `config.dm?.allowFrom ?? []`. -/
def dmAllowFromOf (config : IrcAccountConfig) : List String :=
  (config.dm.bind (fun d => d.allowFrom)).getD []

/-- src/irc/auth.ts isAuthorizedForDm. -/
def isAuthorizedForDm (nick : String) (config : IrcAccountConfig) :
    AuthorizationResult :=
  let policy := dmPolicyOf config
  let allowFrom := dmAllowFromOf config
  if policy = "disabled" then ⟨false, some "DMs are disabled"⟩
  else if policy = "open" then ⟨true, none⟩
  else if policy = "pairing" then
    if allowFrom.length = 0 then ⟨false, some "Not paired"⟩
    else if isInList nick allowFrom then ⟨true, none⟩
    else ⟨false, some "Not paired"⟩
  else ⟨false, some "Unknown policy"⟩

/-- Effective group policy string: `config.groupPolicy ?? "allowlist"`. -/
def groupPolicyOf (config : IrcAccountConfig) : String :=
  config.groupPolicy.getD "allowlist"

/-- src/irc/auth.ts isAuthorizedForChannel.  The channel lookup mirrors
`groups[channel] || groups[channel.toLowerCase()]`. -/
def isAuthorizedForChannel (nick channel : String)
    (config : IrcAccountConfig) : AuthorizationResult :=
  let groupPolicy := groupPolicyOf config
  let channelConfig :=
    (config.groups.lookup channel).or (config.groups.lookup channel.toLower)
  if groupPolicy = "all" then ⟨true, none⟩
  else if groupPolicy = "allowlist" then
    match channelConfig with
    | none => ⟨false, some "Channel not configured"⟩
    | some cc =>
      if isInList nick cc.users then ⟨true, none⟩
      else ⟨false, some "Not in allowlist"⟩
  else if groupPolicy = "denylist" then
    match channelConfig with
    | none => ⟨true, none⟩
    | some cc =>
      if isInList nick cc.users then ⟨false, some "In denylist"⟩
      else ⟨true, none⟩
  else ⟨false, some "Unknown policy"⟩

/-- JS `t.startsWith(p)`, modelled on the underlying character lists (the
same function as Lean's String.startsWith, in a form the kernel can
evaluate). -/
def jsStartsWith (t p : String) : Bool :=
  p.data.isPrefixOf t.data

/-- src/irc/auth.ts isAuthorized: route on
`isDirectMessage = !target.startsWith("#")`. -/
def isAuthorized (nick target : String) (config : IrcAccountConfig) :
    AuthorizationResult :=
  if !(jsStartsWith target "#") then isAuthorizedForDm nick config
  else isAuthorizedForChannel nick target config

/-- src/irc/normalize.ts isChannel: the target starts with one of the two
channel-prefix characters. -/
def isChannel (target : String) : Bool :=
  jsStartsWith target "#" || jsStartsWith target "&"

/-! ## Rate limiter (src/irc/ratelimit.ts) -/

/-- src/irc/ratelimit.ts RateLimitEntry. -/
structure RateLimitEntry where
  count : Nat
  resetTime : Nat
  notified : Bool
deriving DecidableEq

/-- src/irc/ratelimit.ts normalizeKey. -/
def normalizeKey (nick : String) : String :=
  nick.toLower.trim

/-- The decision core of src/irc/ratelimit.ts isRateLimited for one key:
given the entry currently stored for the key (if any) and the current time
in milliseconds, produce the entry stored afterwards together with the
`(limited, shouldNotify)` result.  The background cleanup interval only
deletes entries whose window has elapsed, which this function treats
identically to an absent entry, so it does not affect the result. -/
def rlStep (entry : Option RateLimitEntry) (now : Nat)
    (config : RateLimitConfig) : RateLimitEntry × Bool × Bool :=
  match entry with
  | none => (⟨1, now + config.windowMs, false⟩, false, false)
  | some e =>
    if e.resetTime < now then
      (⟨1, now + config.windowMs, false⟩, false, false)
    else if config.maxRequests ≤ e.count then
      let shouldNotify := !e.notified
      (if shouldNotify then { e with notified := true } else e, true, shouldNotify)
    else
      ({ e with count := e.count + 1 }, false, false)

/-- src/irc/ratelimit.ts isRateLimited over the module-level per-user map,
modelled as a function from keys to optional entries with `Date.now()`
passed explicitly. -/
def isRateLimited (st : String → Option RateLimitEntry) (nick : String)
    (now : Nat) (config : RateLimitConfig) :
    (String → Option RateLimitEntry) × Bool × Bool :=
  let key := normalizeKey nick
  let r := rlStep (st key) now config
  (fun k => if k = key then some r.1 else st k, r.2.1, r.2.2)

/-- Run a sequence of isRateLimited calls for one nick at the given times,
collecting the `(limited, shouldNotify)` results. -/
def rlRun (config : RateLimitConfig) (nick : String) :
    (String → Option RateLimitEntry) → List Nat → List (Bool × Bool)
  | _, [] => []
  | st, t :: ts =>
    let r := isRateLimited st nick t config
    (r.2.1, r.2.2) :: rlRun config nick r.1 ts

/-! ## Connection lifecycle (src/irc/client.ts) -/

/-- src/irc/client.ts INITIAL_RECONNECT_DELAY. -/
def INITIAL_RECONNECT_DELAY : Nat := 1000

/-- src/irc/client.ts MAX_RECONNECT_DELAY. -/
def MAX_RECONNECT_DELAY : Nat := 300000

/-- src/irc/client.ts MAX_RECONNECT_ATTEMPTS. -/
def MAX_RECONNECT_ATTEMPTS : Nat := 10

/-- src/types.ts IrcConnectionState (the channel set is modelled as a
list). -/
structure IrcConnectionState where
  connected : Bool
  registered : Bool
  nickname : Option String
  channels : List String
  lastError : Option String
  reconnectAttempts : Nat
deriving DecidableEq

/-- State update performed by the `registered` event handler in doConnect:
mark connected and registered, record the nickname, clear the last error
and reset the reconnect-attempt counter to zero. -/
def onRegistered (s : IrcConnectionState) (nick : String) :
    IrcConnectionState :=
  { s with
    connected := true
    registered := true
    nickname := some nick
    lastError := none
    reconnectAttempts := 0 }

/-- JS truthiness of an optional string value (`undefined` and the empty
string are falsy). -/
def jsTruthyStr : Option String → Bool
  | none => false
  | some s => !(s == "")

/-- The `client.say` calls issued by the `registered` handler of
src/irc/client.ts before joining channels: the NickServ IDENTIFY fallback
fires whenever a NickServ password is configured and SASL is not
(`config.nickservPassword && !config.sasl`), guarded by nothing else. -/
def registeredAuthSays (config : IrcAccountConfig) : List (String × String) :=
  if jsTruthyStr config.nickservPassword && !config.sasl.isSome then
    [("NickServ", "IDENTIFY " ++ config.nickservPassword.getD "")]
  else []

/-- src/irc/client.ts scheduleReconnect: give up (report the terminal
error) when reconnection is disabled, the client is destroyed, or the
attempt ceiling is reached; otherwise compute the capped exponential delay
from the current attempt count and then increment it.  `Math.pow(2, n)` is
exact in double precision for every attempt count the ceiling admits. -/
def scheduleReconnect (shouldReconnect isDestroyed : Bool)
    (s : IrcConnectionState) : Option (Nat × IrcConnectionState) :=
  if shouldReconnect = false ∨ isDestroyed = true ∨
      MAX_RECONNECT_ATTEMPTS ≤ s.reconnectAttempts then
    none
  else
    some (min (INITIAL_RECONNECT_DELAY * 2 ^ s.reconnectAttempts) MAX_RECONNECT_DELAY,
      { s with reconnectAttempts := s.reconnectAttempts + 1 })

/-- Delay before the n-th retry (n = 1, 2, ...) in an uninterrupted run of
reconnect schedulings starting from state `s`, with reconnection enabled
and the client not destroyed; `none` once scheduling gives up. -/
def nthReconnectDelay : IrcConnectionState → Nat → Option Nat
  | _, 0 => none
  | s, n + 1 =>
    match scheduleReconnect true false s with
    | none => none
    | some (d, s2) => if n = 0 then some d else nthReconnectDelay s2 n

/-! ## Gateway inbound error path (src/channel.ts, startAccount) -/

/-- The reply texts the gateway startAccount message handler sends to the
chat target when the agent invocation (`sendToAgent`) fails or succeeds:
on a caught error it replies with the string interpolation
`Error: ${errorMessage}`, on success the handler itself sends nothing.
The error's own message text (or its stringification) is modelled as the
payload of `Except.error`. -/
def gatewayOnMessageReplies (agentResult : Except String Unit) : List String :=
  match agentResult with
  | Except.ok _ => []
  | Except.error errorMessage => ["Error: " ++ errorMessage]

/-! ## Theorems about the outbound chunker -/

/-- A result of lastIndexOfLe is bounded by the search start index. -/
theorem lastIndexOfLe_le (l : List Char) (c : Char) :
    ∀ n j, lastIndexOfLe l c n = some j → j ≤ n := by
  intro n
  induction n with
  | zero =>
    intro j h
    unfold lastIndexOfLe at h
    split at h <;> simp_all
  | succ n ih =>
    intro j h
    unfold lastIndexOfLe at h
    split at h
    · simp_all
    · exact Nat.le_succ_of_le (ih j h)

/-- Trimming trailing whitespace never lengthens a chunk. -/
theorem trimEnd_length_le (l : List Char) : (trimEnd l).length ≤ l.length := by
  unfold trimEnd
  calc ((l.reverse.dropWhile isJsWhitespace).reverse).length
      = (l.reverse.dropWhile isJsWhitespace).length := by simp
    _ ≤ l.reverse.length := (List.dropWhile_sublist _).length_le
    _ = l.length := by simp

/-- A split index accepted by the 30% threshold comes from the candidate. -/
theorem pickByThreshold_eq_some (L : Nat) (idx : Option Nat) (j : Nat)
    (h : pickByThreshold L idx = some j) : idx = some j := by
  unfold pickByThreshold at h
  rcases idx with _ | i
  · simp at h
  · split at h <;> simp_all

/-- The chosen split point never exceeds the chunk limit. -/
theorem pickSplitIndex_le (L : Nat) (r : List Char) : pickSplitIndex L r ≤ L := by
  unfold pickSplitIndex
  rcases hn : pickByThreshold L (lastIndexOfLe r '\n' L) with _ | j
  · rcases hs : pickByThreshold L (lastIndexOfLe r ' ' L) with _ | k
    · simp only [hn, hs]
      exact Nat.le_refl L
    · simp only [hn, hs]
      exact lastIndexOfLe_le r ' ' L k (pickByThreshold_eq_some L _ k hs)
  · simp only [hn]
    exact lastIndexOfLe_le r '\n' L j (pickByThreshold_eq_some L _ j hn)

/-- Every chunk emitted by the splitting loop fits within the limit. -/
theorem chunkLoop_length_le (L : Nat) :
    ∀ fuel r s, s ∈ chunkLoop L fuel r → s.length ≤ L := by
  intro fuel
  induction fuel with
  | zero =>
    intro r s h
    simp [chunkLoop] at h
  | succ fuel ih =>
    intro r s h
    unfold chunkLoop at h
    by_cases h0 : r.length = 0
    · simp [h0] at h
    · rw [if_neg h0] at h
      by_cases h1 : r.length ≤ L
      · rw [if_pos h1] at h
        split at h
        · simp at h
          subst h
          exact le_trans (trimEnd_length_le r) h1
        · simp at h
      · rw [if_neg h1] at h
        simp only [List.mem_append] at h
        rcases h with h | h
        · split at h
          · simp at h
            subst h
            calc (trimEnd (r.take (pickSplitIndex L r))).length
                ≤ (r.take (pickSplitIndex L r)).length := trimEnd_length_le _
              _ ≤ pickSplitIndex L r := by simp [List.length_take]
              _ ≤ L := pickSplitIndex_le L r
          · simp at h
        · exact ih _ s h

/-- C7: for every input text and every positive maxLength L, every chunk in
the sequence returned by chunkMessage(text, L) has length at most L. -/
theorem chunk_length_le (text : String) (L : Nat) (s : String)
    (_hL : 0 < L) (hs : s ∈ chunkMessage text L) : s.length ≤ L := by
  unfold chunkMessage at hs
  by_cases h0 : text.data.length = 0
  · simp [h0] at hs
  · rw [if_neg h0] at hs
    by_cases h1 : text.data.length ≤ L
    · rw [if_pos h1] at hs
      simp at hs
      subst hs
      exact h1
    · rw [if_neg h1] at hs
      simp only [List.mem_map] at hs
      obtain ⟨cs, hcs, rfl⟩ := hs
      exact chunkLoop_length_le L _ _ cs hcs

/-- Witness for chunk_length_le: chunkMessage splits "abc" at limit 2 into
chunks headed by "ab", whose length is within the limit. -/
theorem chunk_length_le_witness : String.length "ab" ≤ 2 :=
  chunk_length_le "abc" 2 "ab" (by decide) (by decide)

/-- C6 counterexample: the claimed input has total length 28, which is
within the limit of 30, so chunkMessage returns it as one single chunk and
not as the three claimed line chunks. -/
theorem chunk_newline_example_is_single_chunk :
    chunkMessage "line one\nline two\nline three" 30 =
      ["line one\nline two\nline three"] ∧
    chunkMessage "line one\nline two\nline three" 30 ≠
      ["line one", "line two", "line three"] := by
  constructor
  · decide
  · decide

/-- C6 amended: the three line chunks are produced by the sender pipeline
of sendMessageIrc, which splits on explicit line breaks before chunking
each line, while chunkMessage itself returns the text whole because its 28
characters fit within the limit of 30. -/
theorem send_pipeline_splits_newlines_first :
    sendChunks "line one\nline two\nline three" =
      ["line one", "line two", "line three"] ∧
    chunkMessage "line one\nline two\nline three" 30 =
      ["line one\nline two\nline three"] := by
  constructor
  · decide
  · decide

/-! ## Theorems about authorization -/

/-- A configuration carrying unrecognized DM and group policy strings. -/
def unknownPolicyConfig : IrcAccountConfig :=
  ⟨true, "irc.example.com", 6697, true, "bot", none, "Bot", none, none, [],
    some ⟨some "frobnicate", some []⟩, some "mystery", [], none⟩

/-- A configuration whose DM policy string is unrecognized while the group
policy is the recognized "all". -/
def unknownDmAllPolicyConfig : IrcAccountConfig :=
  ⟨true, "irc.example.com", 6697, true, "bot", none, "Bot", none, none, [],
    some ⟨some "frobnicate", some []⟩, some "all", [], none⟩

/-- C3 counterexample: a configuration whose DM policy string is
unrecognized does not make isAuthorized deny a channel message — with the
group policy "all" the routing entry point consults only the group policy
and authorizes the sender, so an unrecognized policy string somewhere in
the configuration does not by itself force authorized = false. -/
theorem unknown_dm_policy_still_allows_channel :
    (dmPolicyOf unknownDmAllPolicyConfig ≠ "disabled" ∧
      dmPolicyOf unknownDmAllPolicyConfig ≠ "open" ∧
      dmPolicyOf unknownDmAllPolicyConfig ≠ "pairing") ∧
    (isAuthorized "mallory" "#chan" unknownDmAllPolicyConfig).authorized = true := by
  refine ⟨⟨by decide, by decide, by decide⟩, by decide⟩

/-- C3 amended: authorization fails closed on the policy actually
consulted.  An unrecognized DM policy string makes the DM evaluator deny,
and makes isAuthorized deny whenever the target is routed to the DM policy
(it does not start with the number sign); an unrecognized group policy
string makes the channel evaluator deny, and makes isAuthorized deny
whenever the target is routed to the group policy.  In no case does an
unrecognized policy string that is consulted yield allow. -/
theorem auth_fails_closed_on_applicable_unknown_policy (nick target : String)
    (config : IrcAccountConfig) :
    ((dmPolicyOf config ≠ "disabled" ∧ dmPolicyOf config ≠ "open" ∧
        dmPolicyOf config ≠ "pairing") →
      (isAuthorizedForDm nick config).authorized = false ∧
      (jsStartsWith target "#" = false →
        (isAuthorized nick target config).authorized = false)) ∧
    ((groupPolicyOf config ≠ "all" ∧ groupPolicyOf config ≠ "allowlist" ∧
        groupPolicyOf config ≠ "denylist") →
      (isAuthorizedForChannel nick target config).authorized = false ∧
      (jsStartsWith target "#" = true →
        (isAuthorized nick target config).authorized = false)) := by
  constructor
  · rintro ⟨h1, h2, h3⟩
    have hd : (isAuthorizedForDm nick config).authorized = false := by
      unfold isAuthorizedForDm
      simp [h1, h2, h3]
    refine ⟨hd, ?_⟩
    intro ht
    unfold isAuthorized
    simp only [ht, Bool.not_false, if_pos]
    exact hd
  · rintro ⟨g1, g2, g3⟩
    have hc : (isAuthorizedForChannel nick target config).authorized = false := by
      unfold isAuthorizedForChannel
      simp [g1, g2, g3]
    refine ⟨hc, ?_⟩
    intro ht
    unfold isAuthorized
    simp only [ht, Bool.not_true, Bool.false_eq_true, if_neg]
    exact hc

/-- Witness for auth_fails_closed_on_applicable_unknown_policy at two
concrete targets against a configuration with both policy strings
unrecognized: a plain nickname target exercises the DM conjunct and a
channel target exercises the group conjunct. -/
theorem auth_fails_closed_on_applicable_unknown_policy_witness :
    (((dmPolicyOf unknownPolicyConfig ≠ "disabled" ∧
        dmPolicyOf unknownPolicyConfig ≠ "open" ∧
        dmPolicyOf unknownPolicyConfig ≠ "pairing") →
      (isAuthorizedForDm "mallory" unknownPolicyConfig).authorized = false ∧
      (jsStartsWith "bob" "#" = false →
        (isAuthorized "mallory" "bob" unknownPolicyConfig).authorized = false)) ∧
    ((groupPolicyOf unknownPolicyConfig ≠ "all" ∧
        groupPolicyOf unknownPolicyConfig ≠ "allowlist" ∧
        groupPolicyOf unknownPolicyConfig ≠ "denylist") →
      (isAuthorizedForChannel "mallory" "bob" unknownPolicyConfig).authorized = false ∧
      (jsStartsWith "bob" "#" = true →
        (isAuthorized "mallory" "bob" unknownPolicyConfig).authorized = false))) ∧
    (((dmPolicyOf unknownPolicyConfig ≠ "disabled" ∧
        dmPolicyOf unknownPolicyConfig ≠ "open" ∧
        dmPolicyOf unknownPolicyConfig ≠ "pairing") →
      (isAuthorizedForDm "mallory" unknownPolicyConfig).authorized = false ∧
      (jsStartsWith "#chan" "#" = false →
        (isAuthorized "mallory" "#chan" unknownPolicyConfig).authorized = false)) ∧
    ((groupPolicyOf unknownPolicyConfig ≠ "all" ∧
        groupPolicyOf unknownPolicyConfig ≠ "allowlist" ∧
        groupPolicyOf unknownPolicyConfig ≠ "denylist") →
      (isAuthorizedForChannel "mallory" "#chan" unknownPolicyConfig).authorized = false ∧
      (jsStartsWith "#chan" "#" = true →
        (isAuthorized "mallory" "#chan" unknownPolicyConfig).authorized = false))) :=
  ⟨auth_fails_closed_on_applicable_unknown_policy "mallory" "bob" unknownPolicyConfig,
   auth_fails_closed_on_applicable_unknown_policy "mallory" "#chan" unknownPolicyConfig⟩

/-- A configuration with an open DM policy and an allowlist group policy
with no configured groups. -/
def openDmAllowlistConfig : IrcAccountConfig :=
  ⟨true, "irc.example.com", 6697, true, "bot", none, "Bot", none, none, [],
    some ⟨some "open", some []⟩, some "allowlist", [], none⟩

/-- C4 counterexample: the target "&ops" is a group identifier by the
channel-prefix test of isChannel, yet isAuthorized routes it to the DM
policy (it only tests for a leading number sign), authorizing the sender
although the group policy for that target would deny. -/
theorem amp_channel_routed_to_dm_policy :
    isChannel "&ops" = true ∧
    (isAuthorized "alice" "&ops" openDmAllowlistConfig).authorized = true ∧
    (isAuthorizedForChannel "alice" "&ops" openDmAllowlistConfig).authorized = false := by
  refine ⟨by decide, by decide, by decide⟩

/-- C4 amended: isAuthorized applies the direct-message policy exactly when
the target does not start with the number-sign character; a target starting
with the ampersand channel-prefix character is also routed to the DM
policy, not to the group policy. -/
theorem authorize_routes_on_hash_mark_only (nick target : String)
    (config : IrcAccountConfig) :
    isAuthorized nick target config =
      (if jsStartsWith target "#" then isAuthorizedForChannel nick target config
       else isAuthorizedForDm nick config) := by
  unfold isAuthorized
  by_cases h : jsStartsWith target "#" <;> simp [h]

/-- C10: when the account configuration has no dm section at all,
isAuthorizedForDm denies every sender with reason "Not paired", exactly as
it does under the pairing policy with an empty allow list. -/
theorem dm_missing_behaves_as_pairing_empty (nick : String)
    (config : IrcAccountConfig) (h : config.dm = none) :
    isAuthorizedForDm nick config = ⟨false, some "Not paired"⟩ ∧
    isAuthorizedForDm nick config =
      isAuthorizedForDm nick { config with dm := some ⟨some "pairing", some []⟩ } := by
  have hbase : isAuthorizedForDm nick config = ⟨false, some "Not paired"⟩ := by
    unfold isAuthorizedForDm dmPolicyOf dmAllowFromOf
    simp [h]
  refine ⟨hbase, ?_⟩
  rw [hbase]
  unfold isAuthorizedForDm dmPolicyOf dmAllowFromOf
  simp

/-- A configuration whose dm section is entirely absent. -/
def noDmSectionConfig : IrcAccountConfig :=
  ⟨true, "irc.example.com", 6697, true, "bot", none, "Bot", none, none, [],
    none, some "allowlist", [], none⟩

/-- Witness for dm_missing_behaves_as_pairing_empty at a concrete sender
and a concrete configuration without a dm section. -/
theorem dm_missing_behaves_as_pairing_empty_witness :
    isAuthorizedForDm "carol" noDmSectionConfig = ⟨false, some "Not paired"⟩ ∧
    isAuthorizedForDm "carol" noDmSectionConfig =
      isAuthorizedForDm "carol"
        { noDmSectionConfig with dm := some ⟨some "pairing", some []⟩ } :=
  dm_missing_behaves_as_pairing_empty "carol" noDmSectionConfig rfl

/-! ## Theorems about the rate limiter -/

/-- C9: a not-limited result never carries a notification, and the stored
entry's notified flag can only become true on the very transition that
returns shouldNotify = true (otherwise it was already true within the
active window). -/
theorem ratelimit_notify_invariant (entry : Option RateLimitEntry) (now : Nat)
    (cfg : RateLimitConfig) :
    ((rlStep entry now cfg).2.1 = false → (rlStep entry now cfg).2.2 = false) ∧
    ((rlStep entry now cfg).1.notified = true →
      (rlStep entry now cfg).2.2 = true ∨
        ∃ e, entry = some e ∧ now ≤ e.resetTime ∧ e.notified = true) := by
  rcases entry with _ | e
  · simp [rlStep]
  · simp only [rlStep]
    by_cases hr : e.resetTime < now
    · simp [hr]
    · by_cases hc : cfg.maxRequests ≤ e.count
      · by_cases hn : e.notified
        · simp [hr, hc, hn]
          omega
        · simp [hr, hc, hn]
      · simp [hr, hc]
        intro h
        exact ⟨by omega, h⟩

/-- Witness for ratelimit_notify_invariant at two concrete entries: one
below the limit (the not-limited conjunct is exercised) and one at the
limit with a clear notified flag (the flag-setting conjunct is
exercised). -/
theorem ratelimit_notify_invariant_witness :
    (((rlStep (some ⟨2, 100, false⟩) 50 ⟨3, 60000⟩).2.1 = false →
       (rlStep (some ⟨2, 100, false⟩) 50 ⟨3, 60000⟩).2.2 = false) ∧
     ((rlStep (some ⟨2, 100, false⟩) 50 ⟨3, 60000⟩).1.notified = true →
       (rlStep (some ⟨2, 100, false⟩) 50 ⟨3, 60000⟩).2.2 = true ∨
         ∃ e, (some ⟨2, 100, false⟩ : Option RateLimitEntry) = some e ∧
           50 ≤ e.resetTime ∧ e.notified = true)) ∧
    (((rlStep (some ⟨3, 100, false⟩) 50 ⟨3, 60000⟩).2.1 = false →
       (rlStep (some ⟨3, 100, false⟩) 50 ⟨3, 60000⟩).2.2 = false) ∧
     ((rlStep (some ⟨3, 100, false⟩) 50 ⟨3, 60000⟩).1.notified = true →
       (rlStep (some ⟨3, 100, false⟩) 50 ⟨3, 60000⟩).2.2 = true ∨
         ∃ e, (some ⟨3, 100, false⟩ : Option RateLimitEntry) = some e ∧
           50 ≤ e.resetTime ∧ e.notified = true)) :=
  ⟨ratelimit_notify_invariant (some ⟨2, 100, false⟩) 50 ⟨3, 60000⟩,
   ratelimit_notify_invariant (some ⟨3, 100, false⟩) 50 ⟨3, 60000⟩⟩

/-- C5: with maxRequests = 3 and a 60000 ms window and no prior entry for
the key, the first three calls within the window are not limited, the 4th
is limited with a notification, the 5th is limited without one, and a call
after the window has elapsed is not limited. -/
theorem ratelimit_three_per_window_sequence
    (nick : String) (st0 : String → Option RateLimitEntry)
    (t1 t2 t3 t4 t5 t6 : Nat)
    (h0 : st0 (normalizeKey nick) = none)
    (h2 : t2 ≤ t1 + 60000) (h3 : t3 ≤ t1 + 60000) (h4 : t4 ≤ t1 + 60000)
    (h5 : t5 ≤ t1 + 60000) (h6 : t1 + 60000 < t6) :
    rlRun ⟨3, 60000⟩ nick st0 [t1, t2, t3, t4, t5, t6] =
      [(false, false), (false, false), (false, false),
       (true, true), (true, false), (false, false)] := by
  have n2 : ¬(t1 + 60000 < t2) := by omega
  have n3 : ¬(t1 + 60000 < t3) := by omega
  have n4 : ¬(t1 + 60000 < t4) := by omega
  have n5 : ¬(t1 + 60000 < t5) := by omega
  simp only [rlRun, isRateLimited, rlStep, h0]
  simp [n2, n3, n4, n5, h6]

/-- Witness for ratelimit_three_per_window_sequence: six concrete calls
for one key, five inside the window and one after it. -/
theorem ratelimit_three_per_window_sequence_witness :
    rlRun ⟨3, 60000⟩ "user1" (fun _ => none) [0, 1, 2, 3, 4, 60001] =
      [(false, false), (false, false), (false, false),
       (true, true), (true, false), (false, false)] :=
  ratelimit_three_per_window_sequence "user1" (fun _ => none) 0 1 2 3 4 60001
    rfl (by decide) (by decide) (by decide) (by decide) (by decide)

/-! ## Theorems about the reconnect scheduler -/

/-- First scheduled retry: its delay is the one computed by the scheduler
from the current attempt counter. -/
theorem nthReconnectDelay_first (s : IrcConnectionState) (d : Nat)
    (s2 : IrcConnectionState)
    (hs : scheduleReconnect true false s = some (d, s2)) :
    nthReconnectDelay s 1 = some d := by
  show (match scheduleReconnect true false s with
        | none => none
        | some (d, s2) => if 0 = 0 then some d else nthReconnectDelay s2 0) = some d
  rw [hs]
  rfl

/-- Later retries: one scheduling step advances the run to the successor
state. -/
theorem nthReconnectDelay_step (s : IrcConnectionState) (m : Nat) (d : Nat)
    (s2 : IrcConnectionState)
    (hs : scheduleReconnect true false s = some (d, s2)) :
    nthReconnectDelay s (m + 2) = nthReconnectDelay s2 (m + 1) := by
  show (match scheduleReconnect true false s with
        | none => none
        | some (d, s2) =>
          if m + 1 = 0 then some d else nthReconnectDelay s2 (m + 1)) =
      nthReconnectDelay s2 (m + 1)
  rw [hs]
  rfl

/-- The n-th delay of an uninterrupted scheduling run, for any starting
attempt counter that stays below the attempt ceiling. -/
theorem nthReconnectDelay_eq (n : Nat) :
    ∀ s : IrcConnectionState, 1 ≤ n → s.reconnectAttempts + n ≤ 10 →
    nthReconnectDelay s n =
      some (min (INITIAL_RECONNECT_DELAY * 2 ^ (s.reconnectAttempts + n - 1))
        MAX_RECONNECT_DELAY) := by
  induction n with
  | zero =>
    intro s h1 h2
    omega
  | succ m ih =>
    intro s h1 h2
    have hsched : scheduleReconnect true false s =
        some (min (INITIAL_RECONNECT_DELAY * 2 ^ s.reconnectAttempts) MAX_RECONNECT_DELAY,
          { s with reconnectAttempts := s.reconnectAttempts + 1 }) := by
      unfold scheduleReconnect
      rw [if_neg (by simp [MAX_RECONNECT_ATTEMPTS]; omega)]
    rcases m with _ | m2
    · rw [nthReconnectDelay_first s _ _ hsched]
      simp
    · rw [nthReconnectDelay_step s m2 _ _ hsched]
      have hrec := ih { s with reconnectAttempts := s.reconnectAttempts + 1 }
        (by omega) (by simp; omega)
      simp only at hrec
      rw [hrec]
      have hexp : s.reconnectAttempts + 1 + (m2 + 1) - 1 =
          s.reconnectAttempts + (m2 + 1 + 1) - 1 := by
        omega
      rw [hexp]

/-- C8: starting from a reset attempt counter, the delay before retry
attempt n (n = 1, 2, ..., up to the attempt ceiling of 10) equals
min(initialDelay × 2^(n-1), maxDelay), and the registered handler resets
the reconnect-attempt counter to zero. -/
theorem reconnect_backoff_delays (s : IrcConnectionState) (nick : String)
    (n : Nat) (h0 : s.reconnectAttempts = 0) (h1 : 1 ≤ n) (h2 : n ≤ 10) :
    nthReconnectDelay s n =
      some (min (INITIAL_RECONNECT_DELAY * 2 ^ (n - 1)) MAX_RECONNECT_DELAY) ∧
    (onRegistered s nick).reconnectAttempts = 0 := by
  constructor
  · have h := nthReconnectDelay_eq n s h1 (by omega)
    rw [h0] at h
    simpa using h
  · rfl

/-- A freshly constructed connection state. -/
def freshConnState : IrcConnectionState := ⟨false, false, none, [], none, 0⟩

/-- Witness for reconnect_backoff_delays at attempt n = 10, where the
exponential delay is clipped by the maximum delay. -/
theorem reconnect_backoff_delays_witness :
    nthReconnectDelay freshConnState 10 =
      some (min (INITIAL_RECONNECT_DELAY * 2 ^ (10 - 1)) MAX_RECONNECT_DELAY) ∧
    (onRegistered freshConnState "bot").reconnectAttempts = 0 :=
  reconnect_backoff_delays freshConnState "bot" 10 rfl (by decide) (by decide)

/-! ## Theorems about the legacy-auth and error-reporting policies -/

/-- An account configuration with legacy NickServ credentials and no SASL
section.  The configuration type carries no explicit legacy-auth enable
flag at all. -/
def legacyOnlyConfig : IrcAccountConfig :=
  ⟨true, "irc.example.com", 6697, true, "bot", none, "Bot", none,
    some "hunter2", [], none, none, [], none⟩

/-- C1 failing input evaluated: with NickServ credentials configured and no
SASL, the registered handler sends the plaintext IDENTIFY to NickServ even
though no explicit enable flag exists in the configuration — the lifecycle
falls back silently (with only a log warning) instead of refusing. -/
theorem nickserv_identify_sent_without_optin :
    legacyOnlyConfig.sasl = none ∧
    registeredAuthSays legacyOnlyConfig = [("NickServ", "IDENTIFY hunter2")] :=
  ⟨rfl, rfl⟩

/-- C2 failing input evaluated: when the agent invocation fails, the
gateway message handler replies to the chat target with the error's own
message appended to an Error label, so the original error detail is echoed
rather than reduced to a generic failure notice. -/
theorem agent_error_detail_echoed :
    gatewayOnMessageReplies (Except.error "boom") = ["Error: boom"] ∧
    (∀ msg : String, gatewayOnMessageReplies (Except.error msg) = ["Error: " ++ msg]) :=
  ⟨rfl, fun _ => rfl⟩
